import Mathlib

/-!
Verification development for the Lecture-Assistant research pipeline
(src/backend: models.py, nodes.py, graph.py, main.py).

The state, the step functions and the two routers are embedded from the
source. External collaborators (the Tavily search API, the OpenAI chat
model, URL fetching, prompt-template files and the wall clock) are
supplied through an explicit `Oracle` record: each oracle field stands
for one external call, and a step function is a pure function of the
state and the oracle, exactly mirroring the control flow of the Python
code. The LangGraph execution engine itself (compile / invoke /
checkpointing) is not part of src; it is modelled from the spec where
needed, and each such definition says so in its doc comment.
-/

namespace LectureAssistant

/-- A claim with provenance, from `ClaimWithSource` in src/backend/models.py. -/
structure ClaimWithSource where
  claim : String
  source_url : String
  source_title : String
  excerpt : String
  verified : Bool
  verification_reasoning : String
  accessed_date : String
deriving Repr, DecidableEq

/-- One entry of the `raw_search_results` list, as built in `search_node`
(src/backend/nodes.py): url, title, snippet and raw content of one Tavily
result. The numeric relevance score is carried along by the Python code but
never read by any node, so it is omitted here. -/
structure SearchResult where
  url : String
  title : String
  snippet : String
  raw_content : String
deriving Repr, DecidableEq

/-- The `human_feedback` dict of the state. Python stores an arbitrary dict
here and reads it with `.get(key, default)`; a `none` field models an absent
key. `resume_research` (src/backend/main.py) writes all three keys. -/
structure Feedback where
  decision : Option String
  notes : Option String
  checkpoint : Option String
deriving Repr, DecidableEq

/-- The empty feedback dict, the default of `state.get("human_feedback", {})`. -/
def empty_feedback : Feedback := ⟨none, none, none⟩

/-- One log entry as built by `log_node_execution`
(src/backend/utils/logger.py). Dict payloads are modelled as association
lists of strings, numbers rendered with `toString`. The wall-clock timestamp
field and the JSONL file write are external effects and are omitted: no
claim inspects them. -/
structure LogEntry where
  node : String
  inputs : List (String × String)
  prompt : Option String
  outputs : List (String × String)
  model_settings : List (String × String)
  human_decision : Option Feedback
deriving Repr, DecidableEq

/-- `log_node_execution` from src/backend/utils/logger.py: constructs the
structured log entry that the caller appends to `node_logs`. Console
printing and the JSONL file append are I/O side effects with no bearing on
the state and are not modelled. -/
def log_node_execution (node_name : String) (inputs : List (String × String))
    (outputs : List (String × String)) (prompt : Option String)
    (model_config : Option (List (String × String)))
    (human_decision : Option Feedback) : LogEntry :=
  { node := node_name
    inputs := inputs
    prompt := prompt
    outputs := outputs
    model_settings := model_config.getD [("type", "deterministic"), ("details", "N/A")]
    human_decision := human_decision }

/-- The final brief dict assembled by `final_brief_node`
(src/backend/nodes.py). Fields are carried at the fidelity the claims
need; the per-section dicts of `lecture_sections` and the per-finding
dicts of `key_findings` keep their string payloads. -/
structure Brief where
  title : String
  introduction : String
  summary : String
  lecture_plan : List String
  lecture_sections : List String
  key_findings : List (String × String × String × String)
  risks : List String
  further_reading : List (String × String × String)
  node_trace : List String
  sources_analyzed : Nat
  claims_extracted : Nat
  claims_verified : Nat
deriving Repr, DecidableEq

/-- The run state, from `AgentState` in src/backend/models.py. The TypedDict
is read with `.get(key, default)` in several places, so the two fields that
are so read (`human_feedback`, `route_to`) are `Option`s, `none` modelling
an absent key; all other fields are always present and always written. -/
structure AgentState where
  topic : String
  search_queries : List String
  raw_search_results : List SearchResult
  extracted_claims : List ClaimWithSource
  draft_plan : List String
  human_feedback : Option Feedback
  refined_plan : List String
  verified_claims : List ClaimWithSource
  final_brief : Option Brief
  node_logs : List LogEntry
  messages : List String
  route_to : Option String
  refinement_notes : String
deriving Repr, DecidableEq

/-- Outcome of one `verify_claim_with_llm` call
(src/backend/utils/validator.py): the function catches every internal
error and always returns this record. -/
structure VerifyOutcome where
  verified : Bool
  reasoning : String
  excerpt : String
deriving Repr, DecidableEq

/-- One raw claim dict as decoded from the JSON array the extraction LLM
returns, fields read with `.get(key, "")` in `extract_node`. -/
structure RawClaim where
  claim : String
  source_url : String
  source_title : String
  excerpt : String
deriving Repr, DecidableEq

/-- The JSON object decoded from the content LLM in `final_brief_node`. -/
structure DetailedContent where
  executive_summary : String
  sections : List String
  risks : List String
deriving Repr, DecidableEq

/-- The external collaborators of the step functions. Each field stands for
one external call site in src/backend: prompt templates are files
(prompt_loader.py), searches hit the Tavily API, the llm fields summarize an
OpenAI call together with the purely textual response parsing that follows
it (JSON decoding in `extract_node`, numbered-line scraping in
`synthesis_node`), fetching hits the network (validator.py), and the date
fields stand for the wall clock. A Python exception in one of these calls is
modelled by the error or empty value the surrounding handler reduces it to. -/
structure Oracle where
  mk_prompt : String → List String → String
  tavily : String → List SearchResult
  llm_extract : String → Except String (List RawClaim)
  synth_parsed : String → List String
  fetch_url : String → Option String
  verify_llm : String → String → VerifyOutcome
  content_gen : String → Except String DetailedContent
  format_date : String → String
  now_iso : String

/-- Python str.strip(): drop whitespace from both ends. Defined by
structural recursion on the character list so that concrete instances
evaluate definitionally. -/
def py_strip (s : String) : String :=
  String.mk (((s.data.dropWhile Char.isWhitespace).reverse.dropWhile Char.isWhitespace).reverse)

/-- `MODEL_CONFIG` from src/backend/nodes.py (model name from the
environment, default gpt-4o-mini). -/
def model_config : List (String × String) :=
  [("model", "gpt-4o-mini"), ("temperature", "0"), ("provider", "OpenAI")]

/-- `input_node` from src/backend/nodes.py: derives five search queries from
the topic and appends its log entry. -/
def input_node (st : AgentState) : AgentState :=
  let topic := st.topic
  let search_queries :=
    [topic ++ " comprehensive guide",
     topic ++ " tutorial explained",
     topic ++ " applications examples",
     topic ++ " latest developments 2024",
     "how does " ++ topic ++ " work"]
  let st1 := {st with search_queries := search_queries}
  {st1 with node_logs := st1.node_logs ++
    [log_node_execution "input" [("topic", topic)]
      [("queries_generated", toString search_queries.length),
       ("examples", toString (search_queries.take 2))] none none none]}

/-- `search_node` from src/backend/nodes.py: one Tavily search per query,
results flattened in order. A per-query exception is caught and contributes
no results, which the oracle models by returning the empty list for that
query. Appends its log entry. -/
def search_node (o : Oracle) (st : AgentState) : AgentState :=
  let results := st.search_queries.flatMap o.tavily
  let st1 := {st with raw_search_results := results}
  {st1 with node_logs := st1.node_logs ++
    [log_node_execution "search" [("queries", toString st.search_queries)]
      [("total_results", toString results.length)] none
      (some [("tool", "Tavily API")]) none]}

/-- The sources context string built at the top of `extract_node`: the first
ten results, each rendered with title, url and the first 1000 characters of
its raw content (the raw_content key is always present, having been written
by `search_node`, so the `.get` default never fires). -/
def source_context (rs : List SearchResult) : String :=
  String.intercalate "\n\n" ((rs.take 10).enum.map (fun p =>
    "SOURCE " ++ toString (p.1 + 1) ++ ":\nTitle: " ++ p.2.title ++
    "\nURL: " ++ p.2.url ++ "\nContent: " ++ p.2.raw_content.take 1000 ++ "\n---"))

/-- `extract_node` from src/backend/nodes.py. With no search results it sets
`extracted_claims` to the empty list and returns at once, appending no log
entry. Otherwise it asks the LLM for a JSON array of claims (`llm_extract`
covers the call, the fence stripping and the JSON decoding; any exception in
that chain is its error case, which the handler turns into the empty claim
list), keeps at most the first ten decoded dicts, and retains those whose
stripped claim text is nonempty with length above 20 and whose stripped url
is nonempty; then it appends its log entry. -/
def extract_node (o : Oracle) (st : AgentState) : AgentState :=
  if st.raw_search_results = [] then
    {st with extracted_claims := []}
  else
    let context := source_context st.raw_search_results
    let extraction_prompt := o.mk_prompt "extract" [st.topic, context]
    let claims : List ClaimWithSource :=
      match o.llm_extract extraction_prompt with
      | .error _ => []
      | .ok claims_data =>
          (claims_data.take 10).filterMap (fun cd =>
            let claim_text := py_strip cd.claim
            let source_url := py_strip cd.source_url
            if claim_text ≠ "" ∧ source_url ≠ "" ∧ claim_text.length > 20 then
              some { claim := claim_text
                     source_url := source_url
                     source_title := py_strip cd.source_title
                     excerpt := (py_strip cd.excerpt).take 400
                     verified := false
                     verification_reasoning := "Not yet verified"
                     accessed_date := o.now_iso }
            else none)
    let st1 := {st with extracted_claims := claims}
    {st1 with node_logs := st1.node_logs ++
      [log_node_execution "extract"
        [("source_count", toString st.raw_search_results.length)]
        [("claims_extracted", toString claims.length)]
        (some extraction_prompt) (some model_config) none]}

/-- The authoritative-domain list of `author_prioritization_node`. -/
def authoritative_domains : List String :=
  [".edu", ".gov", ".org", "arxiv.org", "ieee.org", "acm.org",
   "nature.com", "sciencedirect.com", "springer.com",
   "wikipedia.org", "research.", "scholar."]

/-- Substring test, modelling the Python `domain in url` check. -/
def str_contains (hay needle : String) : Bool :=
  decide (needle.toList <:+: hay.toList)

/-- `author_prioritization_node` from src/backend/nodes.py: stable partition
of the extracted claims, authoritative sources first. Appends its log entry
(note the Python logs the reordered total under the inputs key). -/
def author_prioritization_node (st : AgentState) : AgentState :=
  let is_auth := fun (c : ClaimWithSource) =>
    authoritative_domains.any (fun d => str_contains c.source_url.toLower d)
  let pr := st.extracted_claims.partition is_auth
  let st1 := {st with extracted_claims := pr.1 ++ pr.2}
  {st1 with node_logs := st1.node_logs ++
    [log_node_execution "prioritize"
      [("total_claims", toString st1.extracted_claims.length)]
      [("prioritized", toString pr.1.length), ("regular", toString pr.2.length)]
      none none none]}

/-- The Tavily-content lookup at the top of the per-claim loop in
`verification_node`: the first raw search result whose url matches the
claim and whose raw content is truthy (nonempty). -/
def tavily_content (raws : List SearchResult) (url : String) : Option String :=
  (raws.find? (fun r => r.url == url && r.raw_content != "")).map (fun r => r.raw_content)

/-- The body of the per-claim loop of `verification_node`
(src/backend/nodes.py): pick the source content (Tavily raw content if
present, refetched when missing or under 200 characters), skip the claim if
no content could be obtained, otherwise verify with the LLM, patch the
claim record and keep it only when verified. -/
def verify_one (o : Oracle) (raws : List SearchResult) (c : ClaimWithSource) :
    Option ClaimWithSource :=
  let source_content :=
    match tavily_content raws c.source_url with
    | some content => if content.length < 200 then o.fetch_url c.source_url else some content
    | none => o.fetch_url c.source_url
  match source_content with
  | none => none
  | some content =>
    if content = "" then none
    else
      let v := o.verify_llm c.claim content
      let c1 := {c with verified := v.verified
                        verification_reasoning := v.reasoning
                        excerpt := if v.excerpt ≠ "" then v.excerpt else c.excerpt}
      if c1.verified then some c1 else none

/-- `verification_node` from src/backend/nodes.py: verifies at most the
first 12 extracted claims and stores the ones that pass in
`verified_claims`. Appends its log entry. -/
def verification_node (o : Oracle) (st : AgentState) : AgentState :=
  let claims_to_verify := st.extracted_claims.take 12
  let verified_claims := claims_to_verify.filterMap (verify_one o st.raw_search_results)
  let st1 := {st with verified_claims := verified_claims}
  {st1 with node_logs := st1.node_logs ++
    [log_node_execution "verify"
      [("total_claims", toString st.extracted_claims.length)]
      [("verified", toString verified_claims.length)] none none none]}

/-- The fallback draft plan `synthesis_node` installs when fewer than three
claims are verified. -/
def synthesis_fallback_low (topic : String) : List String :=
  ["1. **Fundamentals of " ++ topic ++ ":** Core definitions and scope (10 mins)",
   "2. **Key Technologies:** Technical architecture and components (15 mins)",
   "3. **Current Applications:** How " ++ topic ++ " is used in industry (15 mins)",
   "4. **Critical Analysis:** Limitations and challenges (10 mins)",
   "5. **Future Outlook:** Emerging trends and research directions (10 mins)"]

/-- The fallback draft plan of the exception handler in `synthesis_node`. -/
def synthesis_fallback_err (topic : String) : List String :=
  ["Introduction: Understanding " ++ topic ++ " (10 minutes)",
   "Foundations: Core concepts and principles (12 minutes)",
   "Technical Deep Dive: How " ++ topic ++ " works (15 minutes)",
   "Real-World Applications: Industry use cases (12 minutes)",
   "Challenges and Limitations: Current obstacles (8 minutes)",
   "Future Directions: Emerging trends (8 minutes)"]

/-- `synthesis_node` from src/backend/nodes.py. With fewer than three
verified claims it installs the five-section fallback plan and returns at
once, appending no log entry. Otherwise it prompts the LLM
(`synth_parsed` covers the call plus the numbered-line scraping of the
response; an exception anywhere in that chain yields a list shorter than
four, the condition the handler itself raises on): four or more parsed
sections become the draft plan, capped at seven, anything less installs the
six-section fallback; either way it then appends its log entry. -/
def synthesis_node (o : Oracle) (st : AgentState) : AgentState :=
  if st.verified_claims.length < 3 then
    {st with draft_plan := synthesis_fallback_low st.topic}
  else
    let claims_text := String.intercalate "\n"
      ((st.verified_claims.take 15).map (fun c => "• " ++ c.claim))
    let synthesis_prompt := o.mk_prompt "synthesize" [st.topic, claims_text]
    let plan := o.synth_parsed synthesis_prompt
    let draft := if plan.length ≥ 4 then plan.take 7 else synthesis_fallback_err st.topic
    let st1 := {st with draft_plan := draft}
    {st1 with node_logs := st1.node_logs ++
      [log_node_execution "synthesize"
        [("verified_claims", toString st.verified_claims.length)]
        [("plan_sections", toString draft.length)]
        (some (synthesis_prompt.take 300)) none none]}

/-- `hitl_plan_review` from src/backend/nodes.py: the plan-review interrupt
node; its whole effect is the awaiting-review log entry. -/
def hitl_plan_review (st : AgentState) : AgentState :=
  {st with node_logs := st.node_logs ++
    [log_node_execution "plan_review"
      [("plan_items", toString st.draft_plan.length)]
      [("status", "awaiting_human_review")] none none none]}

/-- Errors of the embedded engine and step functions. `routing` models a
router return value with no matching declared edge; `stepFailure` models an
uncaught Python exception escaping a step body. -/
inductive EngineErr where
  | routing
  | stepFailure
  | unknownNode
  | fuelExhausted
deriving Repr, DecidableEq

/-- The refine log entry (built after the branch has set `route_to`). -/
def refine_log (decision route : String) (feedback : Feedback) : LogEntry :=
  log_node_execution "refine" [("decision", decision)] [("route_to", route)]
    none none (some feedback)

/-- `refinement_node` from src/backend/nodes.py: dispatches on the feedback
decision, sets `route_to` (and the refined plan or new queries), then
appends its log entry. The emphasize branch indexes `draft_plan[0]`; on an
empty draft plan that Python expression raises IndexError, modelled by the
error return, and the node produces no state and no log entry. -/
def refinement_node (st : AgentState) : Except EngineErr AgentState :=
  let feedback := st.human_feedback.getD empty_feedback
  let decision := feedback.decision.getD ""
  let notes := py_strip (feedback.notes.getD "")
  if decision = "approve" then
    let st1 := {st with refined_plan := st.draft_plan, route_to := some "fact_verification"}
    .ok {st1 with node_logs := st1.node_logs ++ [refine_log decision "fact_verification" feedback]}
  else if decision = "more_sources" then
    let new_queries :=
      if notes = "" then
        [st.topic ++ " advanced topics",
         st.topic ++ " detailed guide",
         st.topic ++ " comprehensive overview"]
      else
        [st.topic ++ " " ++ notes,
         st.topic ++ " " ++ notes ++ " detailed",
         st.topic ++ " " ++ notes ++ " examples"]
    let st1 := {st with search_queries := new_queries, route_to := some "search"}
    .ok {st1 with node_logs := st1.node_logs ++ [refine_log decision "search" feedback]}
  else if decision = "emphasize_topic" then
    if notes = "" then
      let st1 := {st with refined_plan := st.draft_plan, route_to := some "fact_verification"}
      .ok {st1 with node_logs := st1.node_logs ++ [refine_log decision "fact_verification" feedback]}
    else
      match st.draft_plan with
      | [] => .error .stepFailure
      | p0 :: rest =>
        let emphasis := "Special Focus: " ++ notes ++ " (15 minutes)"
        let st1 := {st with refined_plan := p0 :: emphasis :: rest,
                            route_to := some "fact_verification"}
        .ok {st1 with node_logs := st1.node_logs ++ [refine_log decision "fact_verification" feedback]}
  else if decision = "rework" then
    let st1 := {st with refinement_notes := notes, route_to := some "synthesize"}
    .ok {st1 with node_logs := st1.node_logs ++ [refine_log decision "synthesize" feedback]}
  else
    let st1 := {st with refined_plan := st.draft_plan, route_to := some "fact_verification"}
    .ok {st1 with node_logs := st1.node_logs ++ [refine_log decision "fact_verification" feedback]}

/-- `hitl_fact_verification` from src/backend/nodes.py: the
fact-verification interrupt node; presents the first six verified claims
and appends the awaiting-verification log entry. -/
def hitl_fact_verification (st : AgentState) : AgentState :=
  {st with node_logs := st.node_logs ++
    [log_node_execution "fact_verification"
      [("claims_presented", toString (st.verified_claims.take 6).length)]
      [("status", "awaiting_human_verification")] none none none]}

/-- The url-deduplicating bibliography fold of `final_brief_node`. -/
def bibliography_fold (o : Oracle) : List ClaimWithSource → List String →
    List (String × String × String)
  | [], _ => []
  | c :: rest, seen =>
    if seen.contains c.source_url then bibliography_fold o rest seen
    else (c.source_title, c.source_url, o.format_date c.accessed_date) ::
      bibliography_fold o rest (c.source_url :: seen)

/-- `final_brief_node` from src/backend/nodes.py: assembles the final brief
from the current plan (refined if truthy, else draft), the content-LLM
output (with the error fallback of the handler), the first six verified
claims as key findings, the deduplicated bibliography capped at ten, and
the appendix counts; then appends its log entry. The Python `.title()`
capitalization of the topic inside the title string is a string-casing
builtin and is not modelled. -/
def final_brief_node (o : Oracle) (st : AgentState) : AgentState :=
  let verified_claims := st.verified_claims
  let current_plan := if st.refined_plan = [] then st.draft_plan else st.refined_plan
  let claims_text := String.intercalate "\n"
    ((verified_claims.take 25).map (fun c => "- " ++ c.claim ++ " (Source: " ++ c.source_title ++ ")"))
  let plan_text := String.intercalate "\n" current_plan
  let content_prompt := o.mk_prompt "content" [st.topic, claims_text, plan_text]
  let detailed : DetailedContent :=
    match o.content_gen content_prompt with
    | .ok d => d
    | .error _ =>
      { executive_summary := "Overview of " ++ st.topic ++ "."
        sections := []
        risks := ["Complexity in implementing " ++ st.topic,
                  "Scalability challenges for " ++ st.topic ++ " systems",
                  "High resource requirements for deployment"] }
  let key_findings := (verified_claims.take 6).map
    (fun c => (c.claim, c.source_title, c.source_url, c.excerpt))
  let bibliography := bibliography_fold o verified_claims []
  let brief : Brief :=
    { title := "Comprehensive Lecture Plan: " ++ st.topic
      introduction := "Generated lecture plan for " ++ st.topic ++ " based on " ++
        toString verified_claims.length ++ " verified sources."
      summary := detailed.executive_summary
      lecture_plan := current_plan
      lecture_sections := detailed.sections
      key_findings := key_findings
      risks := detailed.risks
      further_reading := bibliography.take 10
      node_trace := st.node_logs.map (fun l => l.node)
      sources_analyzed := st.raw_search_results.length
      claims_extracted := st.extracted_claims.length
      claims_verified := verified_claims.length }
  let st1 := {st with final_brief := some brief}
  {st1 with node_logs := st1.node_logs ++
    [log_node_execution "final_brief"
      [("plan_sections", toString current_plan.length)]
      [("brief_generated", "True")]
      (some content_prompt) (some model_config) none]}

/-- Router A, `route_after_plan_review` from src/backend/graph.py: the
decision read with defaults (`state.get("human_feedback", {}).get("decision", "")`). -/
def feedback_decision (st : AgentState) : String :=
  ((st.human_feedback.getD empty_feedback).decision).getD ""

/-- Router A from src/backend/graph.py: approve goes to fact verification,
everything else to refine. -/
def route_after_plan_review (st : AgentState) : String :=
  if feedback_decision st = "approve" then "fact_verification" else "refine"

/-- Router B, `route_after_refine` from src/backend/graph.py: returns
`state.get("route_to", "fact_verification")` unchanged. -/
def route_after_refine (st : AgentState) : String :=
  st.route_to.getD "fact_verification"

/-- The Interrupt Set, from the `interrupt_before` list passed to
`graph.compile` in src/backend/main.py. -/
def interrupt_set : List String := ["plan_review", "fact_verification"]

/-- The step-function registry of the graph built in src/backend/graph.py:
node name to step function. Every step body is total except `refine`, whose
IndexError corner is the one uncaught exception in src. -/
def step_fn (o : Oracle) (n : String) (st : AgentState) : Except EngineErr AgentState :=
  if n = "input" then .ok (input_node st)
  else if n = "search" then .ok (search_node o st)
  else if n = "extract" then .ok (extract_node o st)
  else if n = "prioritize" then .ok (author_prioritization_node st)
  else if n = "verify" then .ok (verification_node o st)
  else if n = "synthesize" then .ok (synthesis_node o st)
  else if n = "plan_review" then .ok (hitl_plan_review st)
  else if n = "refine" then refinement_node st
  else if n = "fact_verification" then .ok (hitl_fact_verification st)
  else if n = "final_brief" then .ok (final_brief_node o st)
  else .error .unknownNode

/-- The edges and conditional edges of the graph built in
src/backend/graph.py, evaluated on the post-step state: unconditional edges
as added with add_edge, the two routers validated against the declared
target maps of their add_conditional_edges calls (a return value outside
the map is a routing error, as the spec requires and as the LangGraph edge
dict would fail a lookup). `none` is the terminal END marker. -/
def next_node (st : AgentState) (n : String) : Except EngineErr (Option String) :=
  if n = "input" then .ok (some "search")
  else if n = "search" then .ok (some "extract")
  else if n = "extract" then .ok (some "prioritize")
  else if n = "prioritize" then .ok (some "verify")
  else if n = "verify" then .ok (some "synthesize")
  else if n = "synthesize" then .ok (some "plan_review")
  else if n = "plan_review" then
    let t := route_after_plan_review st
    if t = "fact_verification" ∨ t = "refine" then .ok (some t) else .error .routing
  else if n = "refine" then
    let t := route_after_refine st
    if t = "search" ∨ t = "synthesize" ∨ t = "fact_verification" then .ok (some t)
    else .error .routing
  else if n = "fact_verification" then .ok (some "final_brief")
  else if n = "final_brief" then .ok none
  else .error .routing

/-- Result of one engine run segment. -/
inductive RunOutcome where
  | completed (st : AgentState)
  | interrupted (node : String) (st : AgentState)
  | failed (e : EngineErr) (st : AgentState)
  | outOfFuel (st : AgentState)
deriving Repr, DecidableEq

/-- Modelled from the spec: one iteration of the execution-engine loop of
section 4.2. The engine itself (LangGraph invoke with interrupt_before) is
an external library, absent from src; this body follows the spec loop: a
terminal pending marker completes; a pending node in the Interrupt Set,
approached fresh (not as the first iteration of an explicit resume),
interrupts before the step body runs; otherwise the step body runs, the
next node is chosen by the unconditional edge or the validated router, and
the loop continues with the interrupt check re-armed. The list accumulates
the names of the nodes whose step bodies actually ran. -/
def advance_body (o : Oracle)
    (recur : AgentState → Option String → List String × RunOutcome)
    (skip : Bool) (st : AgentState) (pending : Option String) :
    List String × RunOutcome :=
  match pending with
  | none => ([], .completed st)
  | some n =>
    if interrupt_set.contains n && !skip then ([], .interrupted n st)
    else
      match step_fn o n st with
      | .error e => ([], .failed e st)
      | .ok st1 =>
        match next_node st1 n with
        | .error e => ([n], .failed e st1)
        | .ok pending1 =>
          let r := recur st1 pending1
          (n :: r.1, r.2)

/-- Modelled from the spec: the engine loop of section 4.2, fuelled. The
`skip` flag is the resume invariant: it is true exactly on the first
iteration of an explicit resume call, so the currently pending interrupt
node executes once and interrupts are only effective the next time an
interrupt node is entered fresh over an edge. Every cycle of this graph
passes through plan_review, an interrupt node, so any run segment ends
within nine iterations and the fuel of 20 used by the endpoints below is
never exhausted. -/
def advance_loop (o : Oracle) : Nat → Bool → AgentState → Option String →
    List String × RunOutcome
  | 0, _, st, _ => ([], .outOfFuel st)
  | fuel + 1, skip, st, pending => advance_body o (advance_loop o fuel false) skip st pending

/-- A persisted checkpoint: latest state plus pending node
(`none` = terminal), the logical layout of spec section 6. -/
structure CheckpointRec where
  state : AgentState
  pending : Option String
deriving Repr, DecidableEq

/-- Modelled from the spec: the checkpoint store (section 4.3), keyed by
thread id. The SqliteSaver of src/backend/main.py is library code;
get and put with read-your-writes is all the endpoints rely on. Newest
binding first. -/
def Store := List (String × CheckpointRec)

/-- Checkpoint-store read: the most recent binding for the thread id. -/
def store_get (s : Store) (tid : String) : Option CheckpointRec :=
  (s.find? (fun p => p.1 == tid)).map (fun p => p.2)

/-- Checkpoint-store write: whole-checkpoint replacement. -/
def store_put (s : Store) (tid : String) (c : CheckpointRec) : Store :=
  (tid, c) :: s

/-- The request body of the resume endpoint (`FeedbackRequest` in
src/backend/main.py; notes defaults to the empty string). -/
structure FeedbackRequest where
  decision : String
  notes : String
deriving Repr, DecidableEq

/-- Errors the endpoints surface: `notFound` is the HTTP 404 of a missing
session; `internal` is the catch-all HTTP 500 around an engine failure. -/
inductive HErr where
  | notFound
  | internal (e : EngineErr)
deriving Repr, DecidableEq

/-- The response of the run and resume endpoints of src/backend/main.py:
thread id, status string, checkpoint name when interrupted, final brief
when completed, and the result state under the data key. -/
structure RunResponse where
  thread_id : String
  status : String
  checkpoint : Option String
  final_brief : Option Brief
  data : AgentState
deriving Repr, DecidableEq

/-- The response of the status endpoint of src/backend/main.py. -/
structure StatusResponse where
  thread_id : String
  status : String
  checkpoint : Option String
  data : AgentState
deriving Repr, DecidableEq

/-- The initial run state built inline in `start_research`
(src/backend/main.py lines 77 to 91): topic set, every sequence empty,
feedback the empty dict, final brief absent, route_to defaulted to
fact_verification, refinement notes empty. -/
def initial_state (topic : String) : AgentState :=
  { topic := topic
    search_queries := []
    raw_search_results := []
    extracted_claims := []
    draft_plan := []
    human_feedback := some empty_feedback
    refined_plan := []
    verified_claims := []
    final_brief := none
    node_logs := []
    messages := []
    route_to := some "fact_verification"
    refinement_notes := "" }

/-- Shared persist-and-respond tail of the two advancing endpoints: the
engine outcome becomes the HTTP response and the final checkpoint. -/
def finish_run (tid : String) (s : Store) (r : List String × RunOutcome) :
    Except HErr RunResponse × Store :=
  match r.2 with
  | .completed st1 =>
    (.ok ⟨tid, "completed", none, st1.final_brief, st1⟩, store_put s tid ⟨st1, none⟩)
  | .interrupted n st1 =>
    (.ok ⟨tid, "interrupted", some n, none, st1⟩, store_put s tid ⟨st1, some n⟩)
  | .failed e _ => (.error (.internal e), s)
  | .outOfFuel _ => (.error (.internal .fuelExhausted), s)

/-- `start_research` (the run endpoint) from src/backend/main.py: builds the
initial state and invokes the engine with it from the entry node until the
first interrupt. The fresh uuid is a parameter. -/
def start_research (o : Oracle) (s : Store) (tid topic : String) :
    Except HErr RunResponse × Store :=
  finish_run tid s (advance_loop o 20 false (initial_state topic) (some "input"))

/-- The feedback write of `resume_research` (src/backend/main.py lines 150
to 162): the state is patched with the decision, the notes and the current
checkpoint name, nothing else. -/
def apply_feedback (st : AgentState) (fb : FeedbackRequest)
    (current_checkpoint : String) : AgentState :=
  {st with human_feedback := some ⟨some fb.decision, some fb.notes, some current_checkpoint⟩}

/-- `resume_research` (the resume endpoint) from src/backend/main.py: 404
when the thread has no checkpoint; otherwise it writes the feedback into
the parked state with update_state (no pending-node validation of any kind
happens here) and resumes the engine with invoke(None), whose first
iteration executes the pending node itself per the resume invariant. -/
def resume_research (o : Oracle) (s : Store) (tid : String) (fb : FeedbackRequest) :
    Except HErr RunResponse × Store :=
  match store_get s tid with
  | none => (.error .notFound, s)
  | some cp =>
    let current_checkpoint := cp.pending.getD "none"
    let updated := apply_feedback cp.state fb current_checkpoint
    let s1 := store_put s tid ⟨updated, cp.pending⟩
    finish_run tid s1 (advance_loop o 20 true updated cp.pending)

/-- `get_status` (the status endpoint) from src/backend/main.py: a pure
read of the checkpoint; 404 when absent, otherwise completed or interrupted
by whether a pending node exists. The store comes back untouched. -/
def get_status (s : Store) (tid : String) : Except HErr StatusResponse × Store :=
  match store_get s tid with
  | none => (.error .notFound, s)
  | some cp =>
    (.ok ⟨tid, if cp.pending.isSome then "interrupted" else "completed", cp.pending, cp.state⟩, s)

/-- Boolean legality of a routing target of Router B, the declared target
map of the conditional edges after refine. -/
def route_legal (st : AgentState) : Bool :=
  st.route_to == some "search" || st.route_to == some "synthesize" ||
    st.route_to == some "fact_verification"

/-- Whether an endpoint outcome is the 404 not-found error. -/
def is_not_found (r : Except HErr RunResponse) : Bool :=
  match r with
  | .error .notFound => true
  | _ => false

/-- Whether a step outcome is a normal return. -/
def step_ok (r : Except EngineErr AgentState) : Bool :=
  match r with
  | .ok _ => true
  | .error _ => false

/-- A trivial oracle for concrete evaluations: every external call returns
its empty or error value. -/
def triv_oracle : Oracle :=
  { mk_prompt := fun n args => String.intercalate "\n" (n :: args)
    tavily := fun _ => []
    llm_extract := fun _ => .error "no response"
    synth_parsed := fun _ => []
    fetch_url := fun _ => none
    verify_llm := fun _ _ => ⟨false, "no response", ""⟩
    content_gen := fun _ => .error "no response"
    format_date := fun _ => "January 01, 2026"
    now_iso := "2026-01-01T00:00:00" }

/-- Projection of an endpoint outcome onto its status string. -/
def run_status (r : Except HErr RunResponse) : Option String :=
  match r with
  | .ok x => some x.status
  | .error _ => none

/-- A store holding one thread parked at the search node, a node outside
the Interrupt Set (such a checkpoint arises when a run is cancelled or
crashes between nodes and the engine has persisted the next node). -/
def c2_store : Store :=
  [("thread-1", ⟨initial_state "quantum computing", some "search"⟩)]

/-- A store holding one completed thread (no pending node). -/
def c2_done_store : Store := [("t-done", ⟨initial_state "done", none⟩)]

/-- A state whose route_to field holds a value outside the declared target
set of Router B. -/
def c4_state : AgentState := {initial_state "topic" with route_to := some "invalid_route"}

/-- A state whose route_to key is absent. -/
def c4_state_missing : AgentState := {initial_state "topic" with route_to := none}

/-- A state with an emphasize_topic decision, nonempty notes and an empty
draft plan: the input on which the emphasize branch of the refine step
indexes into an empty list. -/
def c10_state : AgentState :=
  {initial_state "ai" with human_feedback := some ⟨some "emphasize_topic", some "history", none⟩}

/-!  Helper lemmas about the embedded pipeline.  -/

lemma refinement_ok_spec (st st1 : AgentState) (h : refinement_node st = .ok st1) :
    (st1.route_to = some "search" ∨ st1.route_to = some "synthesize" ∨
      st1.route_to = some "fact_verification")
    ∧ st1.node_logs.length = st.node_logs.length + 1 := by
  simp only [refinement_node] at h
  split_ifs at h <;>
  first
    | (cases h; simp [List.length_append])
    | (split at h <;> (cases h <;> simp [List.length_append]))

lemma refinement_error_spec (st : AgentState) (e : EngineErr)
    (h : refinement_node st = .error e) : st.draft_plan = [] := by
  simp only [refinement_node] at h
  split_ifs at h <;>
  first
    | (cases h)
    | (split at h
       · rename_i hdp
         exact hdp
       · cases h)

lemma verify_one_verified (o : Oracle) (raws : List SearchResult) (c c1 : ClaimWithSource)
    (h : verify_one o raws c = some c1) : c1.verified = true := by
  simp only [verify_one] at h
  split at h
  · exact absurd h (by simp)
  · split_ifs at h <;> cases h <;> assumption

lemma run_from_search (o : Oracle) (st : AgentState) (fuel : Nat) (h : 6 ≤ fuel) :
    advance_loop o fuel false st (some "search")
      = (["search", "extract", "prioritize", "verify", "synthesize"],
         .interrupted "plan_review"
           (synthesis_node o (verification_node o (author_prioritization_node
             (extract_node o (search_node o st)))))) := by
  obtain ⟨k, rfl⟩ : ∃ k, fuel = k + 6 := ⟨fuel - 6, by omega⟩
  rfl

lemma run_from_synthesize (o : Oracle) (st : AgentState) (fuel : Nat) (h : 2 ≤ fuel) :
    advance_loop o fuel false st (some "synthesize")
      = (["synthesize"], .interrupted "plan_review" (synthesis_node o st)) := by
  obtain ⟨k, rfl⟩ : ∃ k, fuel = k + 2 := ⟨fuel - 2, by omega⟩
  rfl

lemma run_from_fact_fresh (o : Oracle) (st : AgentState) (fuel : Nat) (h : 1 ≤ fuel) :
    advance_loop o fuel false st (some "fact_verification")
      = ([], .interrupted "fact_verification" st) := by
  obtain ⟨k, rfl⟩ : ∃ k, fuel = k + 1 := ⟨fuel - 1, by omega⟩
  rfl

lemma advance_body_resume_pr (o : Oracle)
    (recur : AgentState → Option String → List String × RunOutcome) (st : AgentState) :
    advance_body o recur true st (some "plan_review")
      = (match next_node (hitl_plan_review st) "plan_review" with
         | .error e => (["plan_review"], .failed e (hitl_plan_review st))
         | .ok pending1 =>
           let r := recur (hitl_plan_review st) pending1
           ("plan_review" :: r.1, r.2)) := rfl

lemma advance_body_refine (o : Oracle)
    (recur : AgentState → Option String → List String × RunOutcome) (st : AgentState) :
    advance_body o recur false st (some "refine")
      = (match refinement_node st with
         | .error e => ([], .failed e st)
         | .ok st1 =>
           match next_node st1 "refine" with
           | .error e => (["refine"], .failed e st1)
           | .ok pending1 =>
             let r := recur st1 pending1
             ("refine" :: r.1, r.2)) := rfl

lemma route_pr_approve (st : AgentState) (hd : feedback_decision st = "approve") :
    next_node (hitl_plan_review st) "plan_review" = .ok (some "fact_verification") := by
  show (if route_after_plan_review (hitl_plan_review st) = "fact_verification" ∨
          route_after_plan_review (hitl_plan_review st) = "refine"
        then Except.ok (some (route_after_plan_review (hitl_plan_review st)))
        else Except.error EngineErr.routing) = _
  rw [show route_after_plan_review (hitl_plan_review st) = "fact_verification" by
    show (if feedback_decision st = "approve" then "fact_verification" else "refine") = _
    rw [if_pos hd]]
  simp

lemma route_pr_other (st : AgentState) (hd : ¬ feedback_decision st = "approve") :
    next_node (hitl_plan_review st) "plan_review" = .ok (some "refine") := by
  show (if route_after_plan_review (hitl_plan_review st) = "fact_verification" ∨
          route_after_plan_review (hitl_plan_review st) = "refine"
        then Except.ok (some (route_after_plan_review (hitl_plan_review st)))
        else Except.error EngineErr.routing) = _
  rw [show route_after_plan_review (hitl_plan_review st) = "refine" by
    show (if feedback_decision st = "approve" then "fact_verification" else "refine") = _
    rw [if_neg hd]]
  simp

lemma route_refine_ok (st1 : AgentState)
    (h : st1.route_to = some "search" ∨ st1.route_to = some "synthesize" ∨
      st1.route_to = some "fact_verification") :
    next_node st1 "refine" = .ok st1.route_to := by
  show (if route_after_refine st1 = "search" ∨ route_after_refine st1 = "synthesize" ∨
          route_after_refine st1 = "fact_verification"
        then Except.ok (some (route_after_refine st1))
        else Except.error EngineErr.routing) = _
  rcases h with h | h | h <;> simp [route_after_refine, h]

lemma resume_plan_review_trace (o : Oracle) (st : AgentState) (fuel : Nat) (h : 9 ≤ fuel) :
    (advance_loop o fuel true st (some "plan_review")).1 = ["plan_review"]
    ∨ (advance_loop o fuel true st (some "plan_review")).1 = ["plan_review", "refine"]
    ∨ (advance_loop o fuel true st (some "plan_review")).1 = ["plan_review", "refine", "synthesize"]
    ∨ (advance_loop o fuel true st (some "plan_review")).1
        = ["plan_review", "refine", "search", "extract", "prioritize", "verify", "synthesize"] := by
  obtain ⟨k, rfl⟩ : ∃ k, fuel = k + 9 := ⟨fuel - 9, by omega⟩
  have e0 : advance_loop o (k+9) true st (some "plan_review")
      = advance_body o (advance_loop o (k+8) false) true st (some "plan_review") := rfl
  by_cases hd : feedback_decision st = "approve"
  · have key : advance_loop o (k+9) true st (some "plan_review")
        = (["plan_review"], .interrupted "fact_verification" (hitl_plan_review st)) := by
      rw [e0, advance_body_resume_pr, route_pr_approve st hd]
      rfl
    rw [key]
    simp
  · have e1 : advance_loop o (k+8) false (hitl_plan_review st) (some "refine")
        = advance_body o (advance_loop o (k+7) false) false (hitl_plan_review st) (some "refine") := rfl
    cases hr : refinement_node (hitl_plan_review st) with
    | error e =>
      have key : advance_loop o (k+9) true st (some "plan_review")
          = (["plan_review"], .failed e (hitl_plan_review st)) := by
        rw [e0, advance_body_resume_pr, route_pr_other st hd]
        simp only [e1, advance_body_refine, hr]
      rw [key]
      simp
    | ok st1 =>
      have hnn := route_refine_ok st1 (refinement_ok_spec _ _ hr).1
      rcases (refinement_ok_spec _ _ hr).1 with hro | hro | hro
      · have key : advance_loop o (k+9) true st (some "plan_review")
            = ("plan_review" :: "refine" :: ["search", "extract", "prioritize", "verify", "synthesize"],
               .interrupted "plan_review"
                 (synthesis_node o (verification_node o (author_prioritization_node
                   (extract_node o (search_node o st1)))))) := by
          rw [e0, advance_body_resume_pr, route_pr_other st hd]
          simp only [e1, advance_body_refine, hr, hnn, hro,
            run_from_search o st1 (k+7) (by omega)]
        rw [key]
        simp
      · have key : advance_loop o (k+9) true st (some "plan_review")
            = ("plan_review" :: "refine" :: ["synthesize"],
               .interrupted "plan_review" (synthesis_node o st1)) := by
          rw [e0, advance_body_resume_pr, route_pr_other st hd]
          simp only [e1, advance_body_refine, hr, hnn, hro,
            run_from_synthesize o st1 (k+7) (by omega)]
        rw [key]
        simp
      · have key : advance_loop o (k+9) true st (some "plan_review")
            = (["plan_review", "refine"], .interrupted "fact_verification" st1) := by
          rw [e0, advance_body_resume_pr, route_pr_other st hd]
          simp only [e1, advance_body_refine, hr, hnn, hro,
            run_from_fact_fresh o st1 (k+7) (by omega)]
        rw [key]
        simp

/-!  Claim theorems.  -/

/-- C3: Router A, consulted after plan_review, is a total function of the
human-feedback decision field: it returns fact_verification exactly when
the decision equals the literal approve, and refine for every other value,
including an absent or empty feedback record or decision field; being a
total Lean function of the state it never errors. -/
theorem C3_router_a_total (st : AgentState) :
    (route_after_plan_review st = "fact_verification"
      ↔ (st.human_feedback.getD empty_feedback).decision = some "approve")
    ∧ ((st.human_feedback.getD empty_feedback).decision ≠ some "approve" →
        route_after_plan_review st = "refine")
    ∧ (st.human_feedback = none → route_after_plan_review st = "refine")
    ∧ (route_after_plan_review st = "fact_verification" ∨ route_after_plan_review st = "refine") := by
  cases hd : (st.human_feedback.getD empty_feedback).decision with
  | none =>
    have hfd : feedback_decision st = "" := by simp [feedback_decision, hd]
    have hr : route_after_plan_review st = "refine" := by
      simp [route_after_plan_review, hfd]
    refine ⟨?_, fun _ => hr, fun _ => hr, Or.inr hr⟩
    simp [hr]
  | some d =>
    have hfd : feedback_decision st = d := by simp [feedback_decision, hd]
    by_cases hda : d = "approve"
    · have hr : route_after_plan_review st = "fact_verification" := by
        simp [route_after_plan_review, hfd, hda]
      refine ⟨?_, ?_, ?_, Or.inl hr⟩
      · simp [hr, hda]
      · intro hne
        exact absurd (by rw [hda]) hne
      · intro hn
        rw [hn] at hd
        exact absurd hd (by simp [empty_feedback])
    · have hr : route_after_plan_review st = "refine" := by
        simp [route_after_plan_review, hfd, hda]
      refine ⟨?_, fun _ => hr, fun _ => hr, Or.inr hr⟩
      constructor
      · intro hfv
        rw [hr] at hfv
        exact absurd hfv (by decide)
      · intro hsome
        injection hsome with hd1
        exact absurd hd1 hda

/-- C3 witness: Router A evaluated at three concrete states, one per
hypothesis of the theorem. -/
theorem C3_router_a_total_witness :
    route_after_plan_review {initial_state "t" with
        human_feedback := some ⟨some "approve", none, none⟩} = "fact_verification"
    ∧ route_after_plan_review {initial_state "t" with
        human_feedback := some ⟨some "reject", none, none⟩} = "refine"
    ∧ route_after_plan_review {initial_state "t" with human_feedback := none} = "refine" :=
  ⟨(C3_router_a_total _).1.mpr rfl,
   (C3_router_a_total {initial_state "t" with
      human_feedback := some ⟨some "reject", none, none⟩}).2.1 (by decide),
   (C3_router_a_total {initial_state "t" with human_feedback := none}).2.2.1 rfl⟩

/-- C4 counterexample: with route_to holding the value invalid_route,
outside the three legal targets, Router B returns invalid_route itself,
not the fact_verification default the claim asserts. -/
theorem C4_counterexample :
    route_after_refine c4_state = "invalid_route"
    ∧ (route_after_refine c4_state == "fact_verification") = false
    ∧ (["search", "synthesize", "fact_verification"].contains "invalid_route") = false :=
  ⟨rfl, rfl, rfl⟩

/-- C4 amended: Router B returns the route_to value whenever the field is
present, legal or not, and falls back to fact_verification only when the
field is absent; a present illegal value is passed through unchanged and
then fails the declared-target validation of the conditional edge map (a
routing error) instead of being silently defaulted. -/
theorem C4_router_b_passthrough (st : AgentState) (v : String) :
    (st.route_to = some v → route_after_refine st = v)
    ∧ (st.route_to = none → route_after_refine st = "fact_verification")
    ∧ (st.route_to = some v → v ≠ "search" → v ≠ "synthesize" → v ≠ "fact_verification" →
        next_node st "refine" = .error .routing) := by
  refine ⟨fun h => by simp [route_after_refine, h],
          fun h => by simp [route_after_refine, h],
          fun h h1 h2 h3 => ?_⟩
  show (if route_after_refine st = "search" ∨ route_after_refine st = "synthesize" ∨
          route_after_refine st = "fact_verification"
        then Except.ok (some (route_after_refine st))
        else Except.error EngineErr.routing) = _
  rw [if_neg]
  simp [route_after_refine, h, h1, h2, h3]

/-- C4 witness: the amended router facts at concrete states. -/
theorem C4_router_b_passthrough_witness :
    route_after_refine c4_state = "invalid_route"
    ∧ route_after_refine c4_state_missing = "fact_verification"
    ∧ next_node c4_state "refine" = .error .routing :=
  ⟨(C4_router_b_passthrough c4_state "invalid_route").1 rfl,
   (C4_router_b_passthrough c4_state_missing "x").2.1 rfl,
   (C4_router_b_passthrough c4_state "invalid_route").2.2 rfl (by decide) (by decide) (by decide)⟩

/-- C5 counterexample: two step executions that append no log entry. The
extract step on a state with no raw search results returns with the log
sequence unchanged (length 0, where exactly-one-per-execution demands 1),
and the synthesize step on a state with fewer than three verified claims
does the same. -/
theorem C5_counterexample :
    (extract_node triv_oracle (initial_state "machine learning")).node_logs.length = 0
    ∧ ((extract_node triv_oracle (initial_state "machine learning")).node_logs.length
        == (initial_state "machine learning").node_logs.length + 1) = false
    ∧ (synthesis_node triv_oracle (initial_state "machine learning")).node_logs.length = 0
    ∧ ((synthesis_node triv_oracle (initial_state "machine learning")).node_logs.length
        == (initial_state "machine learning").node_logs.length + 1) = false :=
  ⟨rfl, rfl, rfl, rfl⟩

/-- C5 amended: every step function appends exactly one log entry on every
execution on which it returns, except the two early-return paths: the
extract step with an empty raw-results list and the synthesize step with
fewer than three verified claims append none (and the refine step, when it
raises instead of returning, appends none). -/
theorem C5_log_discipline (o : Oracle) (st : AgentState) :
    (input_node st).node_logs.length = st.node_logs.length + 1
    ∧ (search_node o st).node_logs.length = st.node_logs.length + 1
    ∧ (author_prioritization_node st).node_logs.length = st.node_logs.length + 1
    ∧ (verification_node o st).node_logs.length = st.node_logs.length + 1
    ∧ (hitl_plan_review st).node_logs.length = st.node_logs.length + 1
    ∧ (hitl_fact_verification st).node_logs.length = st.node_logs.length + 1
    ∧ (final_brief_node o st).node_logs.length = st.node_logs.length + 1
    ∧ (refinement_node st).map (fun s1 => s1.node_logs.length)
        = (refinement_node st).map (fun _ => st.node_logs.length + 1)
    ∧ (extract_node o st).node_logs.length
        = (if st.raw_search_results = [] then st.node_logs.length else st.node_logs.length + 1)
    ∧ (synthesis_node o st).node_logs.length
        = (if st.verified_claims.length < 3 then st.node_logs.length else st.node_logs.length + 1) := by
  refine ⟨by simp [input_node], by simp [search_node], by simp [author_prioritization_node],
          by simp [verification_node], by simp [hitl_plan_review], by simp [hitl_fact_verification],
          by simp [final_brief_node], ?_, ?_, ?_⟩
  · cases hr : refinement_node st with
    | error e => rfl
    | ok st1 =>
      simp only [Except.map]
      rw [(refinement_ok_spec _ _ hr).2]
  · by_cases he : st.raw_search_results = [] <;> simp [extract_node, he]
  · by_cases hv : st.verified_claims.length < 3 <;> simp [synthesis_node, hv]

/-- C7: start_research constructs the initial run state with the topic set,
every sequence field empty, the feedback record empty, route_to defaulted
to fact_verification, and hands exactly that state to the engine from the
entry node. -/
theorem C7_initial_state (o : Oracle) (s : Store) (tid topic : String) :
    (initial_state topic).topic = topic
    ∧ (initial_state topic).search_queries = []
    ∧ (initial_state topic).raw_search_results = []
    ∧ (initial_state topic).extracted_claims = []
    ∧ (initial_state topic).draft_plan = []
    ∧ (initial_state topic).human_feedback = some empty_feedback
    ∧ (initial_state topic).refined_plan = []
    ∧ (initial_state topic).verified_claims = []
    ∧ (initial_state topic).final_brief = none
    ∧ (initial_state topic).node_logs = []
    ∧ (initial_state topic).messages = []
    ∧ (initial_state topic).route_to = some "fact_verification"
    ∧ (initial_state topic).refinement_notes = ""
    ∧ start_research o s tid topic
        = finish_run tid s (advance_loop o 20 false (initial_state topic) (some "input")) :=
  ⟨rfl, rfl, rfl, rfl, rfl, rfl, rfl, rfl, rfl, rfl, rfl, rfl, rfl, rfl⟩

/-- C8: get_status is read-only and idempotent: it hands the store back
unchanged, and a second call on the store returned by the first yields the
identical response. -/
theorem C8_get_status_idempotent (s : Store) (tid : String) :
    (get_status s tid).2 = s
    ∧ (get_status ((get_status s tid).2) tid).1 = (get_status s tid).1 := by
  cases h : store_get s tid <;> simp [get_status, h]

/-- C9: after the verify step every claim stored in verified_claims has its
verified flag true (rejected or skipped claims are excluded, not stored
unverified), and at most the first 12 extracted claims are considered, so
verified_claims holds at most 12 entries. -/
theorem C9_verification_postcondition (o : Oracle) (st : AgentState) :
    ((verification_node o st).verified_claims.all (fun c => c.verified)) = true
    ∧ (verification_node o st).verified_claims.length ≤ 12 := by
  have hv : (verification_node o st).verified_claims
      = (st.extracted_claims.take 12).filterMap (verify_one o st.raw_search_results) := rfl
  constructor
  · rw [hv]
    apply List.all_eq_true.mpr
    intro c hc
    obtain ⟨a, _, ha⟩ := List.mem_filterMap.mp hc
    exact verify_one_verified o st.raw_search_results a c ha
  · rw [hv]
    calc ((st.extracted_claims.take 12).filterMap (verify_one o st.raw_search_results)).length
        ≤ (st.extracted_claims.take 12).length := List.length_filterMap_le _ _
      _ ≤ 12 := List.length_take_le _ _

/-- C10 counterexample: with decision emphasize_topic, nonempty notes and
an empty draft plan, the refine step indexes draft_plan[0] and raises
(IndexError in the Python), returning no state at all, so on this input it
does not return a state with a legal route_to. -/
theorem C10_counterexample :
    refinement_node c10_state = Except.error EngineErr.stepFailure
    ∧ c10_state.draft_plan = []
    ∧ feedback_decision c10_state = "emphasize_topic"
    ∧ step_ok (refinement_node c10_state) = false :=
  ⟨rfl, rfl, rfl, rfl⟩

/-- C10 amended: on every input on which the refine step returns at all, the
returned route_to is one of exactly search, synthesize and
fact_verification (so Router B meets its declared target map after every
completed refine execution); the only inputs on which it fails to return
are those with an empty draft plan (the emphasize_topic IndexError corner). -/
theorem C10_route_invariant (st : AgentState) :
    (refinement_node st).map route_legal = (refinement_node st).map (fun _ => true)
    ∧ (step_ok (refinement_node st) || st.draft_plan.isEmpty) = true := by
  constructor
  · cases hr : refinement_node st with
    | error e => rfl
    | ok st1 =>
      simp only [Except.map]
      rcases (refinement_ok_spec _ _ hr).1 with h | h | h <;> simp [route_legal, h]
  · cases hr : refinement_node st with
    | ok st1 => simp [step_ok]
    | error e => simp [step_ok, refinement_error_spec st e hr]

lemma finish_run_not_found (tid : String) (s : Store) (r : List String × RunOutcome) :
    is_not_found (finish_run tid s r).1 = false := by
  rcases r with ⟨tr, out⟩
  cases out <;> rfl

lemma store_get_put (s : Store) (tid : String) (c : CheckpointRec) :
    store_get (store_put s tid c) tid = some c := by
  simp [store_get, store_put]

/-- C1: two-phase interrupt behavior, for both interrupt nodes. Entering an
interrupt node fresh over an edge stops before its step body runs (the
state comes back untouched); resuming a thread parked at an interrupt node
executes that very node first and exactly once, its step body appending
exactly its awaiting-review log entry, and then proceeds through the
graph. -/
theorem C1_two_phase_interrupt (o : Oracle) (st : AgentState) (n : String) (fuel : Nat)
    (hn : n = "plan_review" ∨ n = "fact_verification") (hf : 9 ≤ fuel) :
    advance_loop o fuel false st (some n) = ([], .interrupted n st)
    ∧ (advance_loop o fuel true st (some n)).1.head? = some n
    ∧ (advance_loop o fuel true st (some n)).1.count n = 1
    ∧ step_fn o n st
        = Except.ok (if n = "plan_review" then hitl_plan_review st else hitl_fact_verification st)
    ∧ (if n = "plan_review" then hitl_plan_review st else hitl_fact_verification st).node_logs
        = st.node_logs ++
          [log_node_execution n
            [(if n = "plan_review" then ("plan_items", toString st.draft_plan.length)
              else ("claims_presented", toString (st.verified_claims.take 6).length))]
            [("status", if n = "plan_review" then "awaiting_human_review"
                        else "awaiting_human_verification")]
            none none none] := by
  obtain ⟨k, rfl⟩ : ∃ k, fuel = k + 9 := ⟨fuel - 9, by omega⟩
  rcases hn with rfl | rfl
  · refine ⟨rfl, ?_, ?_, rfl, rfl⟩
    · rcases resume_plan_review_trace o st (k+9) (by omega) with h | h | h | h <;> rw [h] <;> rfl
    · rcases resume_plan_review_trace o st (k+9) (by omega) with h | h | h | h <;> rw [h] <;> rfl
  · have key : advance_loop o (k+9) true st (some "fact_verification")
        = (["fact_verification", "final_brief"],
           .completed (final_brief_node o (hitl_fact_verification st))) := rfl
    refine ⟨rfl, ?_, ?_, rfl, rfl⟩
    · rw [key]
      rfl
    · rw [key]
      rfl

/-- C1 witness: the two-phase behavior at a concrete thread parked at
plan_review with the trivial oracle. -/
theorem C1_two_phase_interrupt_witness :
    advance_loop triv_oracle 20 false (initial_state "neural networks") (some "plan_review")
      = ([], .interrupted "plan_review" (initial_state "neural networks"))
    ∧ (advance_loop triv_oracle 20 true (initial_state "neural networks")
        (some "plan_review")).1.head? = some "plan_review"
    ∧ (advance_loop triv_oracle 20 true (initial_state "neural networks")
        (some "plan_review")).1.count "plan_review" = 1
    ∧ step_fn triv_oracle "plan_review" (initial_state "neural networks")
        = Except.ok (hitl_plan_review (initial_state "neural networks"))
    ∧ (hitl_plan_review (initial_state "neural networks")).node_logs
        = (initial_state "neural networks").node_logs ++
          [log_node_execution "plan_review"
            [("plan_items", toString (initial_state "neural networks").draft_plan.length)]
            [("status", "awaiting_human_review")] none none none] :=
  C1_two_phase_interrupt triv_oracle (initial_state "neural networks") "plan_review" 20
    (Or.inl rfl) (by omega)

/-- C2 counterexample: a thread whose checkpoint exists with pending node
search, which is outside the Interrupt Set. The claim demands an
InvalidState failure with no advance and no mutation; instead the resume
call succeeds with status interrupted (having advanced the run to
plan_review) and the stored state now carries the submitted feedback where
it was empty before. -/
theorem C2_counterexample :
    (interrupt_set.contains "search") = false
    ∧ is_not_found (resume_research triv_oracle c2_store "thread-1" ⟨"approve", ""⟩).1 = false
    ∧ run_status (resume_research triv_oracle c2_store "thread-1" ⟨"approve", ""⟩).1
        = some "interrupted"
    ∧ (store_get c2_store "thread-1").map (fun c => c.state.human_feedback)
        = some (some empty_feedback)
    ∧ (store_get (resume_research triv_oracle c2_store "thread-1" ⟨"approve", ""⟩).2
        "thread-1").map (fun c => c.state.human_feedback)
        = some (some ⟨some "approve", some "", some "search"⟩) :=
  ⟨rfl, rfl, rfl, rfl, rfl⟩

/-- C2 amended: the resume endpoint validates nothing about the pending
node. For every existing checkpoint it writes the feedback into the stored
state and resumes, and its only failure of the not-found kind is a missing
checkpoint; in particular a thread with no pending node at all (completed,
hence outside the Interrupt Set) resumes successfully and its stored state
is mutated with the feedback record. -/
theorem C2_resume_no_validation (o : Oracle) (s : Store) (tid : String)
    (fb : FeedbackRequest) (cp : CheckpointRec) (h : store_get s tid = some cp) :
    is_not_found (resume_research o s tid fb).1 = false
    ∧ (cp.pending = none →
        (resume_research o s tid fb).1
          = Except.ok ⟨tid, "completed", none, (apply_feedback cp.state fb "none").final_brief,
              apply_feedback cp.state fb "none"⟩
        ∧ store_get (resume_research o s tid fb).2 tid
            = some ⟨apply_feedback cp.state fb "none", none⟩) := by
  constructor
  · simp only [resume_research, h]
    exact finish_run_not_found _ _ _
  · intro hp
    rcases cp with ⟨cst, cpend⟩
    simp only at hp
    subst hp
    have ha : advance_loop o 20 true (apply_feedback cst fb ((none : Option String).getD "none"))
        (none : Option String)
        = ([], .completed (apply_feedback cst fb "none")) := rfl
    constructor
    · simp only [resume_research, h]
      rfl
    · simp only [resume_research, h]
      show store_get (finish_run tid
          (store_put s tid ⟨apply_feedback cst fb ((none : Option String).getD "none"), none⟩)
          (advance_loop o 20 true (apply_feedback cst fb ((none : Option String).getD "none"))
            none)).2 tid = _
      rw [ha]
      show store_get (store_put _ tid ⟨apply_feedback cst fb "none", none⟩) tid = _
      rw [store_get_put]

/-- C2 witness: the amended facts at a concrete completed thread. -/
theorem C2_resume_no_validation_witness :
    is_not_found (resume_research triv_oracle c2_done_store "t-done" ⟨"approve", "ok"⟩).1 = false
    ∧ (resume_research triv_oracle c2_done_store "t-done" ⟨"approve", "ok"⟩).1
        = Except.ok ⟨"t-done", "completed", none,
            (apply_feedback (initial_state "done") ⟨"approve", "ok"⟩ "none").final_brief,
            apply_feedback (initial_state "done") ⟨"approve", "ok"⟩ "none"⟩
    ∧ store_get (resume_research triv_oracle c2_done_store "t-done" ⟨"approve", "ok"⟩).2 "t-done"
        = some ⟨apply_feedback (initial_state "done") ⟨"approve", "ok"⟩ "none", none⟩ := by
  have h := C2_resume_no_validation triv_oracle c2_done_store "t-done" ⟨"approve", "ok"⟩
    ⟨initial_state "done", none⟩ rfl
  exact ⟨h.1, (h.2 rfl).1, (h.2 rfl).2⟩

/-- C6: resuming a thread parked at plan_review with the approve decision
executes plan_review alone and stops at the fact_verification interrupt;
the refine node is not executed on that resume (the trace is exactly the
plan_review step), and the resume endpoint reports the interrupt at
fact_verification. -/
theorem C6_approve_reaches_fact_verification (o : Oracle) (st : AgentState)
    (tid : String) (rest : Store) :
    (advance_loop o 20 true (apply_feedback st ⟨"approve", ""⟩ "plan_review")
        (some "plan_review")).1 = ["plan_review"]
    ∧ (advance_loop o 20 true (apply_feedback st ⟨"approve", ""⟩ "plan_review")
        (some "plan_review")).2
      = .interrupted "fact_verification"
          (hitl_plan_review (apply_feedback st ⟨"approve", ""⟩ "plan_review"))
    ∧ (advance_loop o 20 true (apply_feedback st ⟨"approve", ""⟩ "plan_review")
        (some "plan_review")).1.count "refine" = 0
    ∧ (resume_research o ((tid, ⟨st, some "plan_review"⟩) :: rest) tid ⟨"approve", ""⟩).1
      = Except.ok ⟨tid, "interrupted", some "fact_verification", none,
          hitl_plan_review (apply_feedback st ⟨"approve", ""⟩ "plan_review")⟩ := by
  have hadv : advance_loop o 20 true (apply_feedback st ⟨"approve", ""⟩ "plan_review")
      (some "plan_review")
      = (["plan_review"], .interrupted "fact_verification"
          (hitl_plan_review (apply_feedback st ⟨"approve", ""⟩ "plan_review"))) := rfl
  have hget : store_get ((tid, (⟨st, some "plan_review"⟩ : CheckpointRec)) :: rest) tid
      = some ⟨st, some "plan_review"⟩ := by
    simp [store_get]
  refine ⟨by rw [hadv], by rw [hadv], by rw [hadv]; rfl, ?_⟩
  simp only [resume_research, hget, Option.getD_some]
  rw [hadv]
  rfl

end LectureAssistant
